import Mathlib

/-!
Verification development for the `convert_everything` repository
(`audio_convert.py`, `image_convert.py`, `video_convert.py`).

The three Python scripts are shallowly embedded below.  External media
libraries (pydub, moviepy, PIL) perform the actual decode/encode work; a
file's interaction with them is abstracted by boolean fields on the file
descriptor (`loadOk`, `exportOk`, ...) saying whether each external step
raises.  Everything the scripts themselves compute — counters, output
filenames, settings dictionaries, prompt loops, exception handling and
resource cleanup structure — is translated directly from the source.

Interactive stdin is modelled as a list of events: a typed line or a
KeyboardInterrupt delivered at a prompt.  `print` output that matters to
the claims (the interrupt handler's message) is recorded in the result.
-/

namespace ConvertEverything

/-- Model of Python `str.strip()` (ASCII whitespace): drop leading and
trailing whitespace characters. -/
def pyStrip (s : String) : String :=
  String.mk (((s.toList.dropWhile Char.isWhitespace).reverse.dropWhile
    Char.isWhitespace).reverse)

/-- Model of Python `str.lower()` on the ASCII strings used by the
scripts: lower-case every character. -/
def pyLower (s : String) : String :=
  String.mk (s.toList.map Char.toLower)

/-- Model of Python `int(s)` on a text string: optional surrounding
whitespace, an optional single sign, then one or more ASCII digits.
Returns `none` when `int` would raise `ValueError`.  (Python's underscore
digit grouping and non-ASCII digits are not modelled; no caller in this
repository depends on them.) -/
def pythonInt (s : String) : Option Int :=
  let cs := (pyStrip s).toList
  let digitsVal : List Char → Int := fun ds =>
    Int.ofNat (ds.foldl (fun a c => 10 * a + (c.toNat - '0'.toNat)) 0)
  match cs with
  | [] => none
  | '+' :: rest =>
    if rest ≠ [] ∧ rest.all Char.isDigit then some (digitsVal rest) else none
  | '-' :: rest =>
    if rest ≠ [] ∧ rest.all Char.isDigit then some (-(digitsVal rest)) else none
  | _ =>
    if cs.all Char.isDigit then some (digitsVal cs) else none

/-- One interaction at a prompt: either the user types a line, or a
KeyboardInterrupt is delivered while the prompt is waiting. -/
inductive StdinEvent where
  | line (s : String)
  | interrupt
deriving DecidableEq

/-- Result of running one prompt loop against a stream of stdin events.
`ok` returns the value and the unconsumed events; `exit0` models
`sys.exit(0)` reached from a KeyboardInterrupt handler, recording every
line printed after the interrupt was received; `stuck` means the event
list was exhausted while the loop was still re-prompting (the real
program would block waiting for more input). -/
inductive StepResult (α : Type) where
  | ok (a : α) (rest : List StdinEvent)
  | exit0 (printedAfterInterrupt : List String)
  | stuck
deriving DecidableEq

/-- The message printed by every KeyboardInterrupt handler in the
scripts: `print("\nOperation cancelled.")` just before `sys.exit(0)`. -/
def cancelMsg : String := "\nOperation cancelled."

namespace AudioConvert

/-- Descriptor of one candidate input file for the audio converter.
`stem` is `input_path.stem`; `pathExists` is `input_path.exists()`;
`loadOk` says whether `AudioSegment.from_file` succeeds on it; `exportOk`
says whether the subsequent `audio.export` call succeeds. -/
structure AudioFile where
  stem : String
  pathExists : Bool
  loadOk : Bool
  exportOk : Bool
deriving DecidableEq

/-- The `settings` dict assembled by `get_audio_settings`.  Absent keys
are `none`.  `channels = some none` models the key being present with
value Python `None` ("keep original"). -/
structure Settings where
  pcm_format : Option String := none
  sample_rate : Option Int := none
  channels : Option (Option Nat) := none
  bitrate : Option String := none
deriving DecidableEq

/-- `audio_convert.py` lines 258-264: the sample width installed via
`set_sample_width` for each `pcm_format` string; `none` when the
if/elif chain matches nothing and the width is left unchanged. -/
def pcmSampleWidth (pcm_format : String) : Option Nat :=
  if pcm_format = "u8" ∨ pcm_format = "s8" then some 1
  else if pcm_format = "s16" then some 2
  else if pcm_format = "s32" then some 4
  else none

/-- The arguments of the single `audio.export(...)` call made by
`convert_single_audio` (lines 252-283): the export format string, the
extra ffmpeg `parameters` list, the `bitrate` keyword if passed, and the
sample width installed beforehand on the PCM path. -/
structure ExportCall where
  format : String
  parameters : List String
  bitrate : Option String
  sample_width : Option Nat
deriving DecidableEq

/-- The export call `convert_single_audio` issues for a given output
format and settings, translated from lines 252-283: on the `pcm` path
the format is `settings.get('pcm_format', 'u8')`, the parameters are
`['-ar', str(settings.get('sample_rate', 16000))]` and the sample width
follows `pcmSampleWidth`; on every other path the format is the chosen
output format and `bitrate` is forwarded when present in settings. -/
def audioExportCall (output_format : String) (s : Settings) : ExportCall :=
  if output_format = "pcm" then
    { format := s.pcm_format.getD "u8",
      parameters := ["-ar", toString (s.sample_rate.getD 16000)],
      bitrate := none,
      sample_width := pcmSampleWidth (s.pcm_format.getD "u8") }
  else
    { format := output_format,
      parameters := [],
      bitrate := s.bitrate,
      sample_width := none }

/-- The body of the `try:` block of `convert_single_audio` (lines
247-285): load the file, apply settings, export.  An exception from the
external library at either step is an `Except.error`; success carries
the export call that completed. -/
def audioConvertBody (f : AudioFile) (output_format : String) (s : Settings) :
    Except String ExportCall :=
  if !f.loadOk then Except.error "load raised"
  else if !f.exportOk then Except.error "export raised"
  else Except.ok (audioExportCall output_format s)

/-- `AudioConverter.convert_single_audio` (lines 241-288): returns
`false` when the input path does not exist (line 243-245) or when any
exception escapes the try block (caught at line 286, message printed,
`false` returned); returns `true` exactly when the export completed. -/
def convertSingleAudio (f : AudioFile) (output_format : String) (s : Settings) : Bool :=
  if !f.pathExists then false
  else
    match audioConvertBody f output_format s with
    | Except.ok _ => true
    | Except.error _ => false

/-- Summary of one batch run: the counts reported at line 317 of
`convert_all_audio` plus the list of output filenames used, in
processing order. -/
structure BatchReport where
  success_count : Nat
  total_count : Nat
  outputs : List String
deriving DecidableEq

/-- The `for input_path in input_files:` loop of `convert_all_audio`
(lines 303-315), with the loop state (`success_count`, `counter`, the
filenames used so far) passed explicitly. -/
def convertAllLoop (output_format : String) (s : Settings) (naming_mode : Int) :
    List AudioFile → Nat → Nat → List String → Nat × List String
  | [], success_count, _counter, outputs => (success_count, outputs)
  | f :: rest, success_count, counter, outputs =>
    let output_filename :=
      if naming_mode = 1 then f.stem ++ "." ++ output_format
      else toString counter ++ "." ++ output_format
    let counter2 := if naming_mode = 1 then counter else counter + 1
    let success2 :=
      if convertSingleAudio f output_format s then success_count + 1 else success_count
    convertAllLoop output_format s naming_mode rest success2 counter2
      (outputs ++ [output_filename])

/-- The sequence of output filenames the loop of `convert_all_audio`
produces for a file list, starting from a given counter value: the
per-iteration filename choice of lines 304-310. -/
def batchNames (output_format : String) (naming_mode : Int) :
    Nat → List AudioFile → List String
  | _, [] => []
  | counter, f :: rest =>
    (if naming_mode = 1 then f.stem ++ "." ++ output_format
     else toString counter ++ "." ++ output_format)
      :: batchNames output_format naming_mode
          (if naming_mode = 1 then counter else counter + 1) rest

/-- `AudioConverter.convert_all_audio` (lines 290-317).  The matched
file list stands for `list(self.input_dir.glob(f"*{input_ext}"))` in
directory enumeration order.  An empty match prints a notice and returns
early (lines 294-296), reported here as the 0-of-0 result; otherwise the
loop runs over every file and the final counts are reported. -/
def convertAllAudio (files : List AudioFile) (output_format : String)
    (s : Settings) (naming_mode : Int) : BatchReport :=
  if files.isEmpty then
    { success_count := 0, total_count := 0, outputs := [] }
  else
    let r := convertAllLoop output_format s naming_mode files 0 0 []
    { success_count := r.1, total_count := files.length, outputs := r.2 }

/-- `audio_convert.py` line 25-34: keys of `supported_formats`, in
insertion order — the list the input-format menu indexes into. -/
def audioInputExtensions : List String :=
  [".m4a", ".mp3", ".wav", ".flac", ".ogg", ".aac", ".wma", ".mp4"]

/-- `audio_convert.py` line 37-45: keys of `output_formats`, in
insertion order — the list the output-format menu indexes into. -/
def audioOutputFormats : List String :=
  ["mp3", "wav", "m4a", "flac", "ogg", "aac", "pcm"]

/-- `AudioConverter.get_input_format` (lines 87-106): loop reading
`int(input().strip())`; a choice in `1..8` selects that extension,
anything else (including `ValueError`) re-prompts; a KeyboardInterrupt
prints the cancellation line and calls `sys.exit(0)`. -/
def getInputFormat : List StdinEvent → StepResult String
  | [] => StepResult.stuck
  | StdinEvent.interrupt :: _ => StepResult.exit0 [cancelMsg]
  | StdinEvent.line s :: rest =>
    match pythonInt (pyStrip s) with
    | none => getInputFormat rest
    | some n =>
      if 1 ≤ n ∧ n ≤ (audioInputExtensions.length : Int) then
        StepResult.ok (audioInputExtensions.getD (n - 1).toNat "") rest
      else getInputFormat rest

/-- `AudioConverter.get_output_format` (lines 108-127): same validated
menu loop over the seven output formats. -/
def getOutputFormat : List StdinEvent → StepResult String
  | [] => StepResult.stuck
  | StdinEvent.interrupt :: _ => StepResult.exit0 [cancelMsg]
  | StdinEvent.line s :: rest =>
    match pythonInt (pyStrip s) with
    | none => getOutputFormat rest
    | some n =>
      if 1 ≤ n ∧ n ≤ (audioOutputFormats.length : Int) then
        StepResult.ok (audioOutputFormats.getD (n - 1).toNat "") rest
      else getOutputFormat rest

/-- The PCM bit-depth loop of `get_audio_settings` (lines 141-154):
choices 1-4 map to the strings `u8`, `s8`, `s16`, `s32`; anything else
re-prompts. -/
def pcmBitDepthPrompt : List StdinEvent → StepResult String
  | [] => StepResult.stuck
  | StdinEvent.interrupt :: _ => StepResult.exit0 [cancelMsg]
  | StdinEvent.line s :: rest =>
    match pythonInt (pyStrip s) with
    | none => pcmBitDepthPrompt rest
    | some n =>
      if n = 1 then StepResult.ok "u8" rest
      else if n = 2 then StepResult.ok "s8" rest
      else if n = 3 then StepResult.ok "s16" rest
      else if n = 4 then StepResult.ok "s32" rest
      else pcmBitDepthPrompt rest

/-- The PCM sample-rate loop of `get_audio_settings` (lines 157-166):
`int(sample_rate) if sample_rate else 16000`, breaking on the first line
that is empty or parses as an integer; `ValueError` re-prompts. -/
def sampleRatePrompt : List StdinEvent → StepResult Int
  | [] => StepResult.stuck
  | StdinEvent.interrupt :: _ => StepResult.exit0 [cancelMsg]
  | StdinEvent.line s :: rest =>
    let t := pyStrip s
    if t = "" then StepResult.ok 16000 rest
    else
      match pythonInt t with
      | some n => StepResult.ok n rest
      | none => sampleRatePrompt rest

/-- The channel loop of `get_audio_settings` (lines 174-188):
`int(input().strip() or "3")`; 1 and 2 select that channel count, any
other integer means "keep original" (`None`); `ValueError` re-prompts. -/
def channelsPrompt : List StdinEvent → StepResult (Option Nat)
  | [] => StepResult.stuck
  | StdinEvent.interrupt :: _ => StepResult.exit0 [cancelMsg]
  | StdinEvent.line s :: rest =>
    let t := if pyStrip s = "" then "3" else pyStrip s
    match pythonInt t with
    | none => channelsPrompt rest
    | some n =>
      StepResult.ok (if n = 1 then some 1 else if n = 2 then some 2 else none) rest

/-- The bitrate block of `get_audio_settings` (lines 192-202): a single
`input().strip()` that always breaks — a nonempty answer is stored
verbatim, an empty one leaves the key absent. -/
def bitratePrompt : List StdinEvent → StepResult (Option String)
  | [] => StepResult.stuck
  | StdinEvent.interrupt :: _ => StepResult.exit0 [cancelMsg]
  | StdinEvent.line s :: rest =>
    StepResult.ok (if pyStrip s = "" then none else some (pyStrip s)) rest

/-- `AudioConverter.get_audio_settings` (lines 129-204): the PCM path
asks bit depth then sample rate; every other format asks channels, and
the compressed formats (`mp3`, `m4a`, `aac`, `ogg`) then ask bitrate. -/
def getAudioSettings (output_format : String) (events : List StdinEvent) :
    StepResult Settings :=
  if output_format = "pcm" then
    match pcmBitDepthPrompt events with
    | StepResult.stuck => StepResult.stuck
    | StepResult.exit0 p => StepResult.exit0 p
    | StepResult.ok pf r1 =>
      match sampleRatePrompt r1 with
      | StepResult.stuck => StepResult.stuck
      | StepResult.exit0 p => StepResult.exit0 p
      | StepResult.ok sr r2 =>
        StepResult.ok { pcm_format := some pf, sample_rate := some sr } r2
  else
    match channelsPrompt events with
    | StepResult.stuck => StepResult.stuck
    | StepResult.exit0 p => StepResult.exit0 p
    | StepResult.ok ch r1 =>
      if output_format = "mp3" ∨ output_format = "m4a" ∨
          output_format = "aac" ∨ output_format = "ogg" then
        match bitratePrompt r1 with
        | StepResult.stuck => StepResult.stuck
        | StepResult.exit0 p => StepResult.exit0 p
        | StepResult.ok b r2 =>
          StepResult.ok { channels := some ch, bitrate := b } r2
      else
        StepResult.ok { channels := some ch } r1

/-- `AudioConverter.get_naming_mode` (lines 206-220):
`int(input().strip() or "1")` is returned as soon as it parses — there
is no range check, so any integer is accepted; only `ValueError`
re-prompts. -/
def getNamingMode : List StdinEvent → StepResult Int
  | [] => StepResult.stuck
  | StdinEvent.interrupt :: _ => StepResult.exit0 [cancelMsg]
  | StdinEvent.line s :: rest =>
    let t := if pyStrip s = "" then "1" else pyStrip s
    match pythonInt t with
    | none => getNamingMode rest
    | some n => StepResult.ok n rest

/-- `AudioConverter.get_conversion_mode` (lines 222-239): only 1 and 2
are accepted; anything else re-prompts. -/
def getConversionMode : List StdinEvent → StepResult Int
  | [] => StepResult.stuck
  | StdinEvent.interrupt :: _ => StepResult.exit0 [cancelMsg]
  | StdinEvent.line s :: rest =>
    match pythonInt (pyStrip s) with
    | none => getConversionMode rest
    | some n =>
      if n = 1 ∨ n = 2 then StepResult.ok n rest
      else getConversionMode rest

/-- Outcome of `AudioConverter.run`.  `exited` is `sys.exit(0)` from a
prompt's KeyboardInterrupt handler, with the lines printed after the
interrupt; `batchRan` means `convert_all_audio` was invoked and returned
the report; `singleRan` means the single-file path ran;
`uncaughtInterrupt` models a KeyboardInterrupt at the bare
`input("Enter filename ...")` (line 348), which no handler catches. -/
inductive RunResult where
  | exited (printedAfterInterrupt : List String)
  | batchRan (report : BatchReport)
  | singleRan (ok : Bool)
  | uncaughtInterrupt
  | stuck
deriving DecidableEq

/-- `AudioConverter.run` (lines 331-362): the five prompts in order,
then either the batch loop (mode 1) or the single-file path (mode 2).
`glob` maps an input extension to the matched files of the input
directory; `dirFile` maps a typed filename to the descriptor of the file
the constructed input path points at. -/
def runAudio (glob : String → List AudioFile) (dirFile : String → AudioFile)
    (events : List StdinEvent) : RunResult :=
  match getInputFormat events with
  | StepResult.stuck => RunResult.stuck
  | StepResult.exit0 p => RunResult.exited p
  | StepResult.ok input_format r1 =>
    match getOutputFormat r1 with
    | StepResult.stuck => RunResult.stuck
    | StepResult.exit0 p => RunResult.exited p
    | StepResult.ok output_format r2 =>
      match getAudioSettings output_format r2 with
      | StepResult.stuck => RunResult.stuck
      | StepResult.exit0 p => RunResult.exited p
      | StepResult.ok settings r3 =>
        match getNamingMode r3 with
        | StepResult.stuck => RunResult.stuck
        | StepResult.exit0 p => RunResult.exited p
        | StepResult.ok naming_mode r4 =>
          match getConversionMode r4 with
          | StepResult.stuck => RunResult.stuck
          | StepResult.exit0 p => RunResult.exited p
          | StepResult.ok mode r5 =>
            if mode = 1 then
              RunResult.batchRan
                (convertAllAudio (glob input_format) output_format settings naming_mode)
            else
              match r5 with
              | [] => RunResult.stuck
              | StdinEvent.interrupt :: _ => RunResult.uncaughtInterrupt
              | StdinEvent.line name :: _ =>
                RunResult.singleRan
                  (convertSingleAudio (dirFile (pyStrip name)) output_format settings)

end AudioConvert

namespace VideoConvert

/-- Descriptor of one candidate input file for the video converter.
`openOk` says whether `VideoFileClip(...)` succeeds; `resizeOk` whether
`clip.resize(...)` succeeds; `writeOk` whether the `write_gif` /
`write_videofile` call succeeds. -/
structure VideoFile where
  stem : String
  pathExists : Bool
  openOk : Bool
  resizeOk : Bool
  writeOk : Bool
deriving DecidableEq

/-- The `settings` dict from `get_gif_settings`: `resize` is `None`
(keep original), `(w, None)` (scale to width `w`, preserving aspect) or
`(w, h)` (explicit size).  The GIF frame rate does not affect any claim
and is not modelled. -/
structure VideoSettings where
  resize : Option (Nat × Option Nat) := none
deriving DecidableEq

/-- The dimensions produced by the resize step of `convert_single_video`
(lines 175-181), for a clip of original size `origW × origH`.  With
`(w, None)` the script calls `clip.resize(width=w)`, which scales both
dimensions by `w / origW` (moviepy preserves aspect ratio); with
`(w, h)` it forces `(w, h)`; with no resize setting the clip is left
alone. -/
def resizedDims (origW origH : Nat) (resize : Option (Nat × Option Nat)) : Nat × Nat :=
  match resize with
  | none => (origW, origH)
  | some (w, none) => (w, origH * w / origW)
  | some (w, some h) => (w, h)

/-- Outcome of `convert_single_video`: the returned boolean, whether
`VideoFileClip` successfully opened the clip's underlying resource, and
whether `clip.close()` ran before returning. -/
structure VideoOutcome where
  result : Bool
  opened : Bool
  closed : Bool
deriving DecidableEq

/-- `VideoConverter.convert_single_video` (lines 163-198): the missing
path returns `false` before the `try` (no clip opened); a constructor
exception leaves `clip` as `None`, so the `finally` closes nothing; once
the clip is opened, every path — resize exception, write exception, or
success — reaches the `finally` block with `clip is not None` and calls
`clip.close()`. -/
def convertSingleVideo (f : VideoFile) (output_format : String)
    (s : VideoSettings) : VideoOutcome :=
  if !f.pathExists then { result := false, opened := false, closed := false }
  else if !f.openOk then { result := false, opened := false, closed := false }
  else if s.resize.isSome ∧ !f.resizeOk then
    { result := false, opened := true, closed := true }
  else if !f.writeOk then { result := false, opened := true, closed := true }
  else { result := true, opened := true, closed := true }

end VideoConvert

namespace ImageConvert

/-- The color-mode adjustment of `ImageConverter.convert_single_image`
(lines 110-117): JPEG targets convert `RGBA`, `LA` and `P` sources to
`RGB`; a PNG target converts a `P` source to `RGBA`; every other
(target, mode) pair leaves the mode unchanged. -/
def imageModeAfter (output_ext : String) (mode : String) : String :=
  if (pyLower output_ext = "jpg" ∨ pyLower output_ext = "jpeg") ∧
      (mode = "RGBA" ∨ mode = "LA" ∨ mode = "P") then "RGB"
  else if pyLower output_ext = "png" ∧ mode = "P" then "RGBA"
  else mode

end ImageConvert

/-- A healthy audio file: present on disk, loads and exports cleanly. -/
def sampleOk : AudioConvert.AudioFile :=
  { stem := "track", pathExists := true, loadOk := true, exportOk := true }

/-- A second healthy audio file with a different stem. -/
def sampleOk2 : AudioConvert.AudioFile :=
  { stem := "voice", pathExists := true, loadOk := true, exportOk := true }

/-- A corrupt audio file: present on disk but the decoder raises. -/
def sampleCorrupt : AudioConvert.AudioFile :=
  { stem := "broken", pathExists := true, loadOk := false, exportOk := true }

/-- An audio file whose path does not exist. -/
def sampleMissing : AudioConvert.AudioFile :=
  { stem := "ghost", pathExists := false, loadOk := true, exportOk := true }

/-- An input directory in which no extension matches any file. -/
def emptyGlob : String → List AudioConvert.AudioFile := fun _ => []

/-- A directory lookup in which every typed filename points at a
missing file. -/
def emptyDir : String → AudioConvert.AudioFile := fun _ => sampleMissing

/-- A healthy video file: present, opens, resizes and writes cleanly. -/
def sampleClip : VideoConvert.VideoFile :=
  { stem := "clip", pathExists := true, openOk := true, resizeOk := true,
    writeOk := true }

end ConvertEverything

namespace ConvertEverything

open AudioConvert VideoConvert ImageConvert

theorem convertAllLoop_eq (output_format : String) (s : Settings)
    (naming_mode : Int) (files : List AudioFile) :
    ∀ (sc counter : Nat) (outs : List String),
      convertAllLoop output_format s naming_mode files sc counter outs
        = (sc + (files.filter
              (fun f => convertSingleAudio f output_format s)).length,
           outs ++ batchNames output_format naming_mode counter files) := by
  induction files with
  | nil => intro sc counter outs; simp [convertAllLoop, batchNames]
  | cons f rest ih =>
    intro sc counter outs
    simp only [convertAllLoop, batchNames]
    rw [ih]
    cases hc : convertSingleAudio f output_format s <;>
      simp [List.filter_cons, hc, Prod.ext_iff] <;> omega

theorem batchNames_length (output_format : String) (naming_mode : Int)
    (files : List AudioFile) :
    ∀ counter : Nat,
      (batchNames output_format naming_mode counter files).length
        = files.length := by
  induction files with
  | nil => intro counter; rfl
  | cons f rest ih => intro counter; simp [batchNames, ih]

theorem batchNames_of_ne_one (output_format : String) (naming_mode : Int)
    (h : naming_mode ≠ 1) (files : List AudioFile) :
    ∀ counter : Nat,
      batchNames output_format naming_mode counter files
        = (List.range files.length).map
            (fun i => toString (counter + i) ++ "." ++ output_format) := by
  induction files with
  | nil => intro counter; simp [batchNames]
  | cons f rest ih =>
    intro counter
    have hfun : (fun i => toString (counter + 1 + i) ++ "." ++ output_format)
        = (fun i => toString (counter + (i + 1)) ++ "." ++ output_format) := by
      funext i
      rw [Nat.add_assoc, Nat.add_comm 1 i]
    simp only [batchNames, if_neg h, List.length_cons, List.range_succ_eq_map,
      List.map_cons, List.map_map, ih, hfun]
    simp [Function.comp]

theorem batchNames_naming_irrel (output_format : String) (a b : Int)
    (ha : a ≠ 1) (hb : b ≠ 1) (files : List AudioFile) :
    ∀ counter : Nat,
      batchNames output_format a counter files
        = batchNames output_format b counter files := by
  induction files with
  | nil => intro counter; rfl
  | cons f rest ih =>
    intro counter
    simp [batchNames, if_neg ha, if_neg hb, ih]

/-- C1: for every batch of N matched files of which K convert
successfully, `convert_all_audio` processes all N files (one output
filename per file, no early abort), and the final report has
`success_count = K` and `total_count = N`; the zero-match batch yields
the 0-of-0 report. -/
theorem claim_C1 (files : List AudioFile) (output_format : String)
    (s : Settings) (naming_mode : Int) :
    (convertAllAudio files output_format s naming_mode).total_count
        = files.length ∧
    (convertAllAudio files output_format s naming_mode).success_count
        = (files.filter (fun f => convertSingleAudio f output_format s)).length ∧
    (convertAllAudio files output_format s naming_mode).outputs.length
        = files.length ∧
    convertAllAudio [] output_format s naming_mode
        = { success_count := 0, total_count := 0, outputs := [] } := by
  refine ⟨?_, ?_, ?_, by simp [convertAllAudio]⟩ <;>
    cases files with
    | nil => simp [convertAllAudio]
    | cons f rest =>
      simp [convertAllAudio, convertAllLoop_eq, batchNames_length]

/-- C2: `convert_single_audio` returns `false` whenever the input path
is missing or the load/export step raises, `true` exactly when the
export completes; `convert_single_video` behaves the same way.  Both
embeddings are `Bool`-valued total functions: no exception reaches the
caller. -/
theorem claim_C2 (f : AudioFile) (output_format : String) (s : Settings)
    (v : VideoFile) (vfmt : String) (vs : VideoSettings) :
    convertSingleAudio f output_format s
        = (f.pathExists && f.loadOk && f.exportOk) ∧
    (convertSingleVideo v vfmt vs).result
        = (v.pathExists && v.openOk &&
           (!(vs.resize.isSome) || v.resizeOk) && v.writeOk) := by
  constructor
  · cases hp : f.pathExists <;> cases hl : f.loadOk <;> cases he : f.exportOk <;>
      simp [convertSingleAudio, audioConvertBody, hp, hl, he]
  · cases hp : v.pathExists <;> cases ho : v.openOk <;>
      cases hr : v.resizeOk <;> cases hw : v.writeOk <;>
      cases hs : vs.resize.isSome <;>
      simp [convertSingleVideo, hp, ho, hr, hw, hs]

/-- C3: under numeric-counter naming (`naming_mode ≠ 1`) the output
filenames of a batch of N files are exactly `0.<ext>`, ..., `N-1.<ext>`,
assigned sequentially from 0 in the enumeration order of the file
list. -/
theorem claim_C3 (files : List AudioFile) (output_format : String)
    (s : Settings) (naming_mode : Int) (h : naming_mode ≠ 1) :
    (convertAllAudio files output_format s naming_mode).outputs
        = (List.range files.length).map
            (fun i => toString i ++ "." ++ output_format) := by
  cases files with
  | nil => simp [convertAllAudio]
  | cons f rest =>
    simp [convertAllAudio, convertAllLoop_eq, batchNames_of_ne_one _ _ h]

theorem claim_C3_witness :
    (convertAllAudio [sampleOk, sampleCorrupt] "mp3" {} 2).outputs
        = (List.range 2).map (fun i => toString i ++ "." ++ "mp3") :=
  claim_C3 [sampleOk, sampleCorrupt] "mp3" {} 2 (by decide)

/-- C4: the PCM settings-to-sample-width mapping sends `u8` and `s8` to
1 byte, `s16` to 2 bytes and `s32` to 4 bytes, and the chosen sample
rate is passed to the exporter as the explicit `['-ar', str(rate)]`
resampling parameter. -/
theorem claim_C4 (s : Settings) :
    pcmSampleWidth "u8" = some 1 ∧ pcmSampleWidth "s8" = some 1 ∧
    pcmSampleWidth "s16" = some 2 ∧ pcmSampleWidth "s32" = some 4 ∧
    (audioExportCall "pcm" s).parameters
        = ["-ar", toString (s.sample_rate.getD 16000)] ∧
    (audioExportCall "pcm" s).sample_width
        = pcmSampleWidth (s.pcm_format.getD "u8") := by
  refine ⟨by decide, by decide, by decide, by decide, ?_, ?_⟩ <;>
    simp [audioExportCall]

/-- C5 as stated is false: scaling a 1440×1080 clip to max width 720
with aspect preserved yields height 540, not 360. -/
theorem claim_C5_counterexample :
    resizedDims 1440 1080 (some (720, none)) ≠ (720, 360) := by decide

/-- C5 amended: the resize policy scale-to-max-width 720 applied to a
1440×1080 clip yields 720×540, and 540 is the aspect-preserving height
(1440 · 540 = 1080 · 720). -/
theorem claim_C5_amended :
    resizedDims 1440 1080 (some (720, none)) = (720, 540) ∧
    1440 * 540 = 1080 * 720 := by decide

/-- C6: the pre-encoding color-mode conversion of
`convert_single_image`: a JPEG target converts sources in mode `RGBA`,
`LA` or `P` to `RGB`; a PNG target converts a `P` source to `RGBA`;
every other (target, mode) pair leaves the mode unchanged. -/
theorem claim_C6 (output_ext mode : String)
    (h : ¬ (((pyLower output_ext = "jpg" ∨ pyLower output_ext = "jpeg") ∧
          (mode = "RGBA" ∨ mode = "LA" ∨ mode = "P")) ∨
        (pyLower output_ext = "png" ∧ mode = "P"))) :
    (imageModeAfter "jpg" "RGBA" = "RGB" ∧ imageModeAfter "jpg" "LA" = "RGB" ∧
     imageModeAfter "jpg" "P" = "RGB" ∧ imageModeAfter "jpeg" "RGBA" = "RGB" ∧
     imageModeAfter "jpeg" "LA" = "RGB" ∧ imageModeAfter "jpeg" "P" = "RGB" ∧
     imageModeAfter "png" "P" = "RGBA") ∧
    imageModeAfter output_ext mode = mode := by
  refine ⟨by decide, ?_⟩
  unfold imageModeAfter
  rw [if_neg (fun hc => h (Or.inl hc)), if_neg (fun hc => h (Or.inr hc))]

theorem claim_C6_witness : imageModeAfter "webp" "RGBA" = "RGBA" :=
  (claim_C6 "webp" "RGBA" (by decide)).2

/-- C7: whenever `convert_single_video` successfully opens the clip,
`clip.close()` runs before the function returns, on the success path
and on every caught-failure path alike. -/
theorem claim_C7 (f : VideoFile) (output_format : String) (s : VideoSettings)
    (h : (convertSingleVideo f output_format s).opened = true) :
    (convertSingleVideo f output_format s).closed = true := by
  revert h
  cases hp : f.pathExists <;> cases ho : f.openOk <;>
    cases hr : f.resizeOk <;> cases hw : f.writeOk <;>
    cases hs : s.resize.isSome <;>
    simp [convertSingleVideo, hp, ho, hr, hw, hs]

theorem claim_C7_witness :
    (convertSingleVideo sampleClip "gif" { resize := some (720, none) }).closed
      = true :=
  claim_C7 sampleClip "gif" { resize := some (720, none) } (by decide)

/-- C8 as stated is false: the sample-rate loop accepts any string that
Python `int` parses, so the non-positive input `-1` is accepted as the
sample rate instead of re-triggering the prompt. -/
theorem claim_C8_counterexample :
    sampleRatePrompt [StdinEvent.line "-1"] = StepResult.ok (-1) [] ∧
    ¬ (0 < (-1 : Int)) := by decide

/-- C8 amended: the sample-rate field yields an integer (not
necessarily positive): empty input falls back to the default 16000,
any line that parses as an integer — including zero and negative
values — is accepted as entered, and any line that does not parse
re-triggers the same prompt. -/
theorem claim_C8_amended :
    (∀ (st : String) (rest : List StdinEvent), pyStrip st = "" →
      sampleRatePrompt (StdinEvent.line st :: rest)
        = StepResult.ok 16000 rest) ∧
    (∀ (st : String) (rest : List StdinEvent) (n : Int), pyStrip st ≠ "" →
      pythonInt (pyStrip st) = some n →
      sampleRatePrompt (StdinEvent.line st :: rest) = StepResult.ok n rest) ∧
    (∀ (st : String) (rest : List StdinEvent), pyStrip st ≠ "" →
      pythonInt (pyStrip st) = none →
      sampleRatePrompt (StdinEvent.line st :: rest) = sampleRatePrompt rest) := by
  refine ⟨?_, ?_, ?_⟩
  · intro st rest h
    simp [sampleRatePrompt, h]
  · intro st rest n h hp
    simp [sampleRatePrompt, h, hp]
  · intro st rest h hp
    simp [sampleRatePrompt, h, hp]

theorem claim_C8_witness :
    sampleRatePrompt [StdinEvent.line "   "] = StepResult.ok 16000 [] ∧
    sampleRatePrompt [StdinEvent.line "8000"] = StepResult.ok 8000 [] ∧
    sampleRatePrompt [StdinEvent.line "abc", StdinEvent.line "8000"]
        = sampleRatePrompt [StdinEvent.line "8000"] :=
  ⟨claim_C8_amended.1 "   " [] (by decide),
   claim_C8_amended.2.1 "8000" [] 8000 (by decide) (by decide),
   claim_C8_amended.2.2 "abc" [StdinEvent.line "8000"] (by decide) (by decide)⟩

theorem getInputFormat_exit0 :
    ∀ (events : List StdinEvent) (p : List String),
      getInputFormat events = StepResult.exit0 p → p = [cancelMsg] := by
  intro events
  induction events with
  | nil => intro p h; simp [getInputFormat] at h
  | cons e rest ih =>
    intro p h
    cases e with
    | interrupt => simp [getInputFormat] at h; exact h.symm
    | line s =>
      cases hp : pythonInt (pyStrip s) with
      | none => simp only [getInputFormat, hp] at h; exact ih p h
      | some n =>
        simp only [getInputFormat, hp] at h
        split at h
        · cases h
        · exact ih p h

theorem getOutputFormat_exit0 :
    ∀ (events : List StdinEvent) (p : List String),
      getOutputFormat events = StepResult.exit0 p → p = [cancelMsg] := by
  intro events
  induction events with
  | nil => intro p h; simp [getOutputFormat] at h
  | cons e rest ih =>
    intro p h
    cases e with
    | interrupt => simp [getOutputFormat] at h; exact h.symm
    | line s =>
      cases hp : pythonInt (pyStrip s) with
      | none => simp only [getOutputFormat, hp] at h; exact ih p h
      | some n =>
        simp only [getOutputFormat, hp] at h
        split at h
        · cases h
        · exact ih p h

theorem pcmBitDepthPrompt_exit0 :
    ∀ (events : List StdinEvent) (p : List String),
      pcmBitDepthPrompt events = StepResult.exit0 p → p = [cancelMsg] := by
  intro events
  induction events with
  | nil => intro p h; simp [pcmBitDepthPrompt] at h
  | cons e rest ih =>
    intro p h
    cases e with
    | interrupt => simp [pcmBitDepthPrompt] at h; exact h.symm
    | line s =>
      cases hp : pythonInt (pyStrip s) with
      | none => simp only [pcmBitDepthPrompt, hp] at h; exact ih p h
      | some n =>
        simp only [pcmBitDepthPrompt, hp] at h
        split at h
        · cases h
        · split at h
          · cases h
          · split at h
            · cases h
            · split at h
              · cases h
              · exact ih p h

theorem sampleRatePrompt_exit0 :
    ∀ (events : List StdinEvent) (p : List String),
      sampleRatePrompt events = StepResult.exit0 p → p = [cancelMsg] := by
  intro events
  induction events with
  | nil => intro p h; simp [sampleRatePrompt] at h
  | cons e rest ih =>
    intro p h
    cases e with
    | interrupt => simp [sampleRatePrompt] at h; exact h.symm
    | line s =>
      by_cases ht : pyStrip s = ""
      · simp [sampleRatePrompt, ht] at h
      · cases hp : pythonInt (pyStrip s) with
        | none => simp only [sampleRatePrompt, if_neg ht, hp] at h; exact ih p h
        | some n =>
          simp only [sampleRatePrompt, if_neg ht, hp] at h
          cases h

theorem channelsPrompt_exit0 :
    ∀ (events : List StdinEvent) (p : List String),
      channelsPrompt events = StepResult.exit0 p → p = [cancelMsg] := by
  intro events
  induction events with
  | nil => intro p h; simp [channelsPrompt] at h
  | cons e rest ih =>
    intro p h
    cases e with
    | interrupt => simp [channelsPrompt] at h; exact h.symm
    | line s =>
      cases hp : pythonInt (if pyStrip s = "" then "3" else pyStrip s) with
      | none => simp only [channelsPrompt, hp] at h; exact ih p h
      | some n =>
        simp only [channelsPrompt, hp] at h
        cases h

theorem bitratePrompt_exit0 :
    ∀ (events : List StdinEvent) (p : List String),
      bitratePrompt events = StepResult.exit0 p → p = [cancelMsg] := by
  intro events p h
  cases events with
  | nil => simp [bitratePrompt] at h
  | cons e rest =>
    cases e with
    | interrupt => simp [bitratePrompt] at h; exact h.symm
    | line s => simp [bitratePrompt] at h

theorem getNamingMode_exit0 :
    ∀ (events : List StdinEvent) (p : List String),
      getNamingMode events = StepResult.exit0 p → p = [cancelMsg] := by
  intro events
  induction events with
  | nil => intro p h; simp [getNamingMode] at h
  | cons e rest ih =>
    intro p h
    cases e with
    | interrupt => simp [getNamingMode] at h; exact h.symm
    | line s =>
      cases hp : pythonInt (if pyStrip s = "" then "1" else pyStrip s) with
      | none => simp only [getNamingMode, hp] at h; exact ih p h
      | some n =>
        simp only [getNamingMode, hp] at h
        cases h

theorem getConversionMode_exit0 :
    ∀ (events : List StdinEvent) (p : List String),
      getConversionMode events = StepResult.exit0 p → p = [cancelMsg] := by
  intro events
  induction events with
  | nil => intro p h; simp [getConversionMode] at h
  | cons e rest ih =>
    intro p h
    cases e with
    | interrupt => simp [getConversionMode] at h; exact h.symm
    | line s =>
      cases hp : pythonInt (pyStrip s) with
      | none => simp only [getConversionMode, hp] at h; exact ih p h
      | some n =>
        simp only [getConversionMode, hp] at h
        split at h
        · cases h
        · exact ih p h

theorem getAudioSettings_exit0 (output_format : String)
    (events : List StdinEvent) (p : List String)
    (h : getAudioSettings output_format events = StepResult.exit0 p) :
    p = [cancelMsg] := by
  unfold getAudioSettings at h
  by_cases hf : output_format = "pcm"
  · simp only [if_pos hf] at h
    cases h1 : pcmBitDepthPrompt events with
    | stuck => rw [h1] at h; simp at h
    | exit0 q =>
      rw [h1] at h; simp at h
      rw [← h]; exact pcmBitDepthPrompt_exit0 events q h1
    | ok pf r1 =>
      rw [h1] at h; simp only [] at h
      cases h2 : sampleRatePrompt r1 with
      | stuck => rw [h2] at h; simp at h
      | exit0 q =>
        rw [h2] at h; simp at h
        rw [← h]; exact sampleRatePrompt_exit0 r1 q h2
      | ok sr r2 => rw [h2] at h; simp at h
  · simp only [if_neg hf] at h
    cases h1 : channelsPrompt events with
    | stuck => rw [h1] at h; simp at h
    | exit0 q =>
      rw [h1] at h; simp at h
      rw [← h]; exact channelsPrompt_exit0 events q h1
    | ok ch r1 =>
      rw [h1] at h; simp only [] at h
      split at h
      · cases h2 : bitratePrompt r1 with
        | stuck => rw [h2] at h; simp at h
        | exit0 q =>
          rw [h2] at h; simp at h
          rw [← h]; exact bitratePrompt_exit0 r1 q h2
        | ok b r2 => rw [h2] at h; simp at h
      · cases h

/-- C9 as stated is false: the interrupt handler does produce further
output — it prints the line "\nOperation cancelled." before calling
`sys.exit(0)`. -/
theorem claim_C9_counterexample :
    runAudio emptyGlob emptyDir [StdinEvent.interrupt]
        = RunResult.exited [cancelMsg] ∧
    ([cancelMsg] : List String) ≠ [] := by decide

/-- C9 amended: an interrupt received during any interactive prompt
ends the process via `sys.exit(0)` after printing exactly the one line
"\nOperation cancelled.", and the Batch Runner (`convert_all_audio`) is
never invoked on such a run. -/
theorem claim_C9_amended (glob : String → List AudioFile)
    (dirFile : String → AudioFile) (events : List StdinEvent)
    (p : List String)
    (h : runAudio glob dirFile events = RunResult.exited p) :
    p = [cancelMsg] ∧
    ∀ r, runAudio glob dirFile events ≠ RunResult.batchRan r := by
  refine ⟨?_, fun r hr => by rw [h] at hr; cases hr⟩
  unfold runAudio at h
  cases h1 : getInputFormat events with
  | stuck => rw [h1] at h; simp at h
  | exit0 q =>
    rw [h1] at h; simp at h
    rw [← h]; exact getInputFormat_exit0 events q h1
  | ok input_format r1 =>
    rw [h1] at h; simp only [] at h
    cases h2 : getOutputFormat r1 with
    | stuck => rw [h2] at h; simp at h
    | exit0 q =>
      rw [h2] at h; simp at h
      rw [← h]; exact getOutputFormat_exit0 r1 q h2
    | ok output_format r2 =>
      rw [h2] at h; simp only [] at h
      cases h3 : getAudioSettings output_format r2 with
      | stuck => rw [h3] at h; simp at h
      | exit0 q =>
        rw [h3] at h; simp at h
        rw [← h]; exact getAudioSettings_exit0 output_format r2 q h3
      | ok settings r3 =>
        rw [h3] at h; simp only [] at h
        cases h4 : getNamingMode r3 with
        | stuck => rw [h4] at h; simp at h
        | exit0 q =>
          rw [h4] at h; simp at h
          rw [← h]; exact getNamingMode_exit0 r3 q h4
        | ok naming_mode r4 =>
          rw [h4] at h; simp only [] at h
          cases h5 : getConversionMode r4 with
          | stuck => rw [h5] at h; simp at h
          | exit0 q =>
            rw [h5] at h; simp at h
            rw [← h]; exact getConversionMode_exit0 r4 q h5
          | ok mode r5 =>
            rw [h5] at h; simp only [] at h
            split at h
            · cases h
            · cases r5 with
              | nil => cases h
              | cons e r6 =>
                cases e with
                | interrupt => cases h
                | line name => cases h

theorem claim_C9_witness :
    ([cancelMsg] : List String) = [cancelMsg] ∧
    ∀ r, runAudio emptyGlob emptyDir [StdinEvent.interrupt]
        ≠ RunResult.batchRan r :=
  claim_C9_amended emptyGlob emptyDir [StdinEvent.interrupt] [cancelMsg]
    (by decide)

/-- C10: `get_naming_mode` returns any integer the user enters, with no
range validation, and the batch runner treats every value other than 1
as numeric-counter naming — a batch run with naming mode n ≠ 1 is
indistinguishable from one with naming mode 2. -/
theorem claim_C10 :
    (∀ (st : String) (rest : List StdinEvent) (n : Int),
      pythonInt (if pyStrip st = "" then "1" else pyStrip st) = some n →
      getNamingMode (StdinEvent.line st :: rest) = StepResult.ok n rest) ∧
    (∀ (files : List AudioFile) (output_format : String) (s : Settings)
        (naming_mode : Int), naming_mode ≠ 1 →
      convertAllAudio files output_format s naming_mode
        = convertAllAudio files output_format s 2) := by
  constructor
  · intro st rest n hp
    simp [getNamingMode, hp]
  · intro files output_format s naming_mode hn
    cases files with
    | nil => rfl
    | cons f rest =>
      simp [convertAllAudio, convertAllLoop_eq,
        batchNames_naming_irrel output_format naming_mode 2 hn (by decide)]

theorem claim_C10_witness :
    getNamingMode [StdinEvent.line "7"] = StepResult.ok 7 [] ∧
    convertAllAudio [sampleOk, sampleMissing] "wav" {} 7
        = convertAllAudio [sampleOk, sampleMissing] "wav" {} 2 :=
  ⟨claim_C10.1 "7" [] 7 (by decide),
   claim_C10.2 [sampleOk, sampleMissing] "wav" {} 7 (by decide)⟩

end ConvertEverything
